import Mathlib

/-!
# POS transaction engine: a shallow embedding

This file embeds the transaction-settlement flow of the POS backend
(`createTransaction` / `refundTransaction` in
`src/server/src/handlers/transactions.ts`, the shift lifecycle
`startShift` / `endShift`, and the catalog stock operations) as pure Lean
functions over an explicit database state, and proves the specified
properties about them.

Monetary values are represented as exact rationals (`Rat`): the backend
stores them as fixed-point decimal columns and the spec demands exact
decimal arithmetic.  Timestamps are abstract ticks (`Nat`).  Each handler
takes the database state and returns `Except`-style result paired with the
state after the call; an error from a validation phase leaves the state
unchanged, mirroring the fact that the handler raises before issuing any
write.  The write phase of `createTransaction` is additionally exposed as
an explicit list of single-statement write steps (`WriteStep`), mirroring
the sequence of individually awaited database statements in the source,
which issues them one by one with no enclosing storage transaction.
-/

namespace POS

/-- Payment methods, from the `payment_method` enum in `src/server/src/schema.ts`. -/
inductive PaymentMethod where
  | cash
  | card
  | qr_code
  | e_wallet
deriving DecidableEq, Repr

/-- Transaction statuses, from the `status` enum in `src/server/src/schema.ts`. -/
inductive TxStatus where
  | pending
  | completed
  | cancelled
  | refunded
deriving DecidableEq, Repr

/-- A product variant row (`product_variants` table): the fields the
transaction-settlement flow reads and writes. -/
structure Variant where
  id : Nat
  stock_quantity : Int
  low_stock_threshold : Int
deriving DecidableEq, Repr

/-- A transaction row (`transactions` table). -/
structure TransactionRow where
  id : Nat
  customer_id : Option Nat
  cashier_id : Nat
  subtotal : Rat
  discount_amount : Rat
  tax_amount : Rat
  total_amount : Rat
  payment_method : PaymentMethod
  payment_amount : Rat
  change_amount : Rat
  status : TxStatus
  notes : Option String
  created_at : Nat
deriving DecidableEq, Repr

/-- A transaction line-item row (`transaction_items` table). -/
structure TransactionItemRow where
  transaction_id : Nat
  product_variant_id : Nat
  quantity : Nat
  unit_price : Rat
  discount_amount : Rat
  total_price : Rat
deriving DecidableEq, Repr

/-- A shift row (`shifts` table). -/
structure ShiftRow where
  id : Nat
  cashier_id : Nat
  start_time : Nat
  end_time : Option Nat
  opening_cash : Rat
  closing_cash : Option Rat
  total_sales : Rat
  transaction_count : Int
deriving DecidableEq, Repr

/-- The database state touched by the settlement flow.  `users` keeps the
ids of the rows of the `users` table (the flow only ever checks that a
cashier id exists), `nextTxId` / `nextShiftId` model the serial primary
keys and `now` the wall clock read by `new Date()`. -/
structure DB where
  users : List Nat
  variants : List Variant
  transactions : List TransactionRow
  items : List TransactionItemRow
  shifts : List ShiftRow
  nextTxId : Nat
  nextShiftId : Nat
  now : Nat
deriving DecidableEq, Repr

/-- The distinguishable failures the handlers raise. -/
inductive PosError where
  | VariantNotFound (variantId : Nat)
  | InsufficientStock (variantId : Nat) (available : Int) (requested : Int)
  | TransactionNotFound (transactionId : Nat)
  | AlreadyRefunded
  | CashierNotFound
  | ShiftAlreadyActive
  | ShiftNotFound
  | ShiftAlreadyEnded
deriving DecidableEq, Repr

/-- One line item of `createTransactionInputSchema` in `src/server/src/schema.ts`. -/
structure TxItemInput where
  product_variant_id : Nat
  quantity : Nat
  unit_price : Rat
  discount_amount : Rat
deriving DecidableEq, Repr

/-- The input of `createTransaction` (`createTransactionInputSchema`). -/
structure CreateTransactionInput where
  customer_id : Option Nat
  cashier_id : Nat
  items : List TxItemInput
  payment_method : PaymentMethod
  payment_amount : Rat
  discount_amount : Rat
  notes : Option String
deriving DecidableEq, Repr

/-- The constraints `createTransactionInputSchema` places on an input
(`z.array` of items with positive `quantity` and `unit_price` and
non-negative `discount_amount`; positive `payment_amount`; non-negative
transaction-level `discount_amount`).  The schema puts no lower bound on
the length of `items`. -/
def SchemaValidInput (input : CreateTransactionInput) : Prop :=
  (∀ it ∈ input.items,
      0 < it.quantity ∧ 0 < it.unit_price ∧ 0 ≤ it.discount_amount) ∧
  0 < input.payment_amount ∧ 0 ≤ input.discount_amount

instance (input : CreateTransactionInput) : Decidable (SchemaValidInput input) := by
  unfold SchemaValidInput; infer_instance

/-- `db.select().from(productVariantsTable).where(eq(id, vid))`, first row. -/
def findVariant (db : DB) (vid : Nat) : Option Variant :=
  db.variants.find? (fun v => v.id == vid)

/-- The per-item precondition of `createTransaction`
(transactions.ts lines 21-34): the referenced variant must exist and hold
at least the requested quantity. -/
def itemCheck (db : DB) (it : TxItemInput) : Option PosError :=
  match findVariant db it.product_variant_id with
  | none => some (.VariantNotFound it.product_variant_id)
  | some v =>
    if v.stock_quantity < (it.quantity : Int) then
      some (.InsufficientStock it.product_variant_id v.stock_quantity (it.quantity : Int))
    else
      none

/-- The validation loop of `createTransaction`: items are checked in list
order and the first offending item's error is raised. -/
def validateItems (db : DB) : List TxItemInput → Option PosError
  | [] => none
  | it :: rest =>
    match itemCheck db it with
    | some e => some e
    | none => validateItems db rest

/-- `input.items.reduce((sum, item) => sum + (unit_price * quantity - discount_amount), 0)`. -/
def subtotalOf (items : List TxItemInput) : Rat :=
  items.foldl (fun sum it => sum + (it.unit_price * (it.quantity : Rat) - it.discount_amount)) 0

/-- The transaction row `createTransaction` inserts (status `'completed'`,
`tax_amount = 0`, `total_amount = subtotal - discount + tax`,
`change_amount = payment - total`). -/
def mkTxRow (db : DB) (input : CreateTransactionInput) : TransactionRow :=
  let subtotal := subtotalOf input.items
  let tax_amount : Rat := 0
  let total_amount := subtotal - input.discount_amount + tax_amount
  let change_amount := input.payment_amount - total_amount
  { id := db.nextTxId
    customer_id := input.customer_id
    cashier_id := input.cashier_id
    subtotal := subtotal
    discount_amount := input.discount_amount
    tax_amount := tax_amount
    total_amount := total_amount
    payment_method := input.payment_method
    payment_amount := input.payment_amount
    change_amount := change_amount
    status := .completed
    notes := input.notes
    created_at := db.now }

/-- The item row inserted for one line item:
`total_price = unit_price * quantity - discount_amount`. -/
def mkItemRow (txId : Nat) (it : TxItemInput) : TransactionItemRow :=
  { transaction_id := txId
    product_variant_id := it.product_variant_id
    quantity := it.quantity
    unit_price := it.unit_price
    discount_amount := it.discount_amount
    total_price := it.unit_price * (it.quantity : Rat) - it.discount_amount }

/-- The `where` clause `and(eq(shifts.cashier_id, c), isNull(shifts.end_time))`. -/
def isOpenFor (c : Nat) (s : ShiftRow) : Bool :=
  s.cashier_id == c && s.end_time == none

/-- One awaited SQL statement of the write phase of `createTransaction`.
The source issues these sequentially with no enclosing storage
transaction, so each one commits on its own. -/
inductive WriteStep where
  | insertTransactionRow (row : TransactionRow)
  | insertItemRow (row : TransactionItemRow)
  | decrementStock (variantId : Nat) (qty : Nat)
  | updateShiftOnSale (cashierId : Nat) (amount : Rat)
deriving DecidableEq, Repr

/-- The effect of one write statement on the database. -/
def applyWrite (db : DB) : WriteStep → DB
  | .insertTransactionRow row =>
    { db with transactions := db.transactions ++ [row], nextTxId := db.nextTxId + 1 }
  | .insertItemRow row =>
    { db with items := db.items ++ [row] }
  | .decrementStock vid qty =>
    { db with variants := db.variants.map (fun v =>
        if v.id == vid then { v with stock_quantity := v.stock_quantity - (qty : Int) } else v) }
  | .updateShiftOnSale c amount =>
    { db with shifts := db.shifts.map (fun s =>
        if isOpenFor c s then
          { s with total_sales := s.total_sales + amount,
                   transaction_count := s.transaction_count + 1 }
        else s) }

/-- The per-item write statements (insert the item row, decrement the
variant's stock), in list order. -/
def itemSteps (txId : Nat) : List TxItemInput → List WriteStep
  | [] => []
  | it :: rest =>
    .insertItemRow (mkItemRow txId it) ::
    .decrementStock it.product_variant_id it.quantity ::
    itemSteps txId rest

/-- The full write phase of `createTransaction`: insert the transaction
row, then per item insert the item row and decrement stock, then bump the
cashier's open shift. -/
def writeSteps (db : DB) (input : CreateTransactionInput) : List WriteStep :=
  .insertTransactionRow (mkTxRow db input) ::
  (itemSteps db.nextTxId input.items ++
    [.updateShiftOnSale input.cashier_id (mkTxRow db input).total_amount])

/-- `createTransaction` (transactions.ts lines 15-119): validate every
item in list order, then compute the totals and run the write phase.  The
returned state is the fold of the write statements; a validation failure
raises before any write. -/
def createTransaction (db : DB) (input : CreateTransactionInput) :
    Except PosError TransactionRow × DB :=
  match validateItems db input.items with
  | some e => (.error e, db)
  | none => (.ok (mkTxRow db input), (writeSteps db input).foldl applyWrite db)

/-- `db.select().from(transactionsTable).where(eq(id, tid))`, first row. -/
def findTransaction (db : DB) (tid : Nat) : Option TransactionRow :=
  db.transactions.find? (fun t => t.id == tid)

/-- The item rows of one transaction (`where(eq(transaction_id, tid))`). -/
def itemsOfTransaction (db : DB) (tid : Nat) : List TransactionItemRow :=
  db.items.filter (fun it => it.transaction_id == tid)

/-- The stock-restore loop of `refundTransaction`: for each item row, add
its quantity back to the referenced variant. -/
def restoreStock (items : List TransactionItemRow) (vs : List Variant) : List Variant :=
  items.foldl (fun vs it =>
    vs.map (fun v =>
      if v.id == it.product_variant_id then
        { v with stock_quantity := v.stock_quantity + (it.quantity : Int) }
      else v)) vs

/-- `refundTransaction` (transactions.ts lines 188-261): fail when the
transaction is unknown or already refunded; otherwise restore the stock of
every item, mark the transaction refunded, and subtract its total from the
cashier's open shift. -/
def refundTransaction (db : DB) (tid : Nat) : Except PosError TransactionRow × DB :=
  match findTransaction db tid with
  | none => (.error (.TransactionNotFound tid), db)
  | some tx =>
    if tx.status = .refunded then
      (.error .AlreadyRefunded, db)
    else
      let items := itemsOfTransaction db tid
      (.ok { tx with status := .refunded },
        { db with
            variants := restoreStock items db.variants
            transactions := db.transactions.map (fun t =>
              if t.id == tid then { t with status := .refunded } else t)
            shifts := db.shifts.map (fun s =>
              if isOpenFor tx.cashier_id s then
                { s with total_sales := s.total_sales - tx.total_amount,
                         transaction_count := s.transaction_count - 1 }
              else s) })

/-- `startShift` (shifts handler): fail when the cashier id is unknown or
the cashier already has a shift with `end_time` null; otherwise insert a
fresh shift with the given opening cash and zeroed counters. -/
def startShift (db : DB) (cashierId : Nat) (openingCash : Rat) :
    Except PosError ShiftRow × DB :=
  if db.users.contains cashierId then
    if db.shifts.any (isOpenFor cashierId) then
      (.error .ShiftAlreadyActive, db)
    else
      let row : ShiftRow :=
        { id := db.nextShiftId
          cashier_id := cashierId
          start_time := db.now
          end_time := none
          opening_cash := openingCash
          closing_cash := none
          total_sales := 0
          transaction_count := 0 }
      (.ok row, { db with shifts := db.shifts ++ [row], nextShiftId := db.nextShiftId + 1 })
  else
    (.error .CashierNotFound, db)

/-- `db.select().from(shiftsTable).where(eq(id, sid))`, first row. -/
def findShift (db : DB) (sid : Nat) : Option ShiftRow :=
  db.shifts.find? (fun s => s.id == sid)

/-- The completed transactions of the shift's cashier whose `created_at`
falls between the shift's start and now (the `between` is inclusive). -/
def shiftWindowTransactions (db : DB) (s : ShiftRow) : List TransactionRow :=
  db.transactions.filter (fun t =>
    t.cashier_id == s.cashier_id &&
    decide (s.start_time ≤ t.created_at) &&
    decide (t.created_at ≤ db.now) &&
    t.status == TxStatus.completed)

/-- The closed shift row `endShift` writes: end time and closing cash as
given, and the counters recomputed from the completed transactions in the
shift window, superseding whatever the incremental counters held. -/
def closedShiftRow (db : DB) (s : ShiftRow) (closingCash : Rat) : ShiftRow :=
  let txs := shiftWindowTransactions db s
  { s with
      end_time := some db.now
      closing_cash := some closingCash
      total_sales := (txs.map (fun t => t.total_amount)).sum
      transaction_count := (txs.length : Int) }

/-- `endShift` (shifts handler): fail when the shift is unknown or already
has an end time; otherwise write the closed row. -/
def endShift (db : DB) (shiftId : Nat) (closingCash : Rat) :
    Except PosError ShiftRow × DB :=
  match findShift db shiftId with
  | none => (.error .ShiftNotFound, db)
  | some s =>
    match s.end_time with
    | some _ => (.error .ShiftAlreadyEnded, db)
    | none =>
      let row := closedShiftRow db s closingCash
      (.ok row,
        { db with shifts := db.shifts.map (fun sh => if sh.id == shiftId then row else sh) })

/-- Modelled from the spec: `updateStock` in
`src/server/src/handlers/products.ts` is a placeholder declaration with no
body.  Per the spec (§4.3), it adjusts `stock_quantity` by a delta, fails
with NotFound when the variant is missing, and fails with
InsufficientStock when the resulting quantity would be negative. -/
def updateStock (db : DB) (variantId : Nat) (delta : Int) :
    Except PosError Variant × DB :=
  match findVariant db variantId with
  | none => (.error (.VariantNotFound variantId), db)
  | some v =>
    if v.stock_quantity + delta < 0 then
      (.error (.InsufficientStock variantId v.stock_quantity delta), db)
    else
      let v' := { v with stock_quantity := v.stock_quantity + delta }
      (.ok v', { db with variants := db.variants.map (fun w => if w.id == variantId then v' else w) })

/-- Modelled from the spec: `getLowStockVariants` in
`src/server/src/handlers/products.ts` is a placeholder declaration with no
body.  Per the spec (§4.3), it returns all variants where
`stock_quantity ≤ low_stock_threshold`. -/
def getLowStockVariants (db : DB) : List Variant :=
  db.variants.filter (fun v => decide (v.stock_quantity ≤ v.low_stock_threshold))

/-- One request against the backend state. -/
inductive Op where
  | createTx (input : CreateTransactionInput)
  | refundTx (transactionId : Nat)
  | stockUpdate (variantId : Nat) (delta : Int)
  | shiftStart (cashierId : Nat) (openingCash : Rat)
  | shiftEnd (shiftId : Nat) (closingCash : Rat)
  | tick (dt : Nat)

/-- The committed state after one request: a request that fails leaves the
state it found (the handlers raise before writing).  `tick` advances the
clock. -/
def step (db : DB) : Op → DB
  | .createTx input => (createTransaction db input).2
  | .refundTx tid => (refundTransaction db tid).2
  | .stockUpdate vid d => (updateStock db vid d).2
  | .shiftStart c oc => (startShift db c oc).2
  | .shiftEnd sid cc => (endShift db sid cc).2
  | .tick dt => { db with now := db.now + dt }

/-- The committed state after a sequence of requests. -/
def run (db : DB) (ops : List Op) : DB :=
  ops.foldl step db

/-- The open shifts a database holds for one cashier. -/
def openCount (db : DB) (c : Nat) : Nat :=
  (db.shifts.filter (isOpenFor c)).length

/-- At most one open shift per cashier. -/
def ShiftInv (db : DB) : Prop :=
  ∀ c, openCount db c ≤ 1

/-- Every stock count is non-negative. -/
def StockInv (db : DB) : Prop :=
  ∀ v ∈ db.variants, 0 ≤ v.stock_quantity

/-- The cumulative decrement the write phase applies to the variant rows. -/
def decAll (items : List TxItemInput) (vs : List Variant) : List Variant :=
  items.foldl (fun vs it =>
    vs.map (fun v =>
      if v.id == it.product_variant_id then
        { v with stock_quantity := v.stock_quantity - (it.quantity : Int) }
      else v)) vs

instance (db : DB) : Decidable (StockInv db) := by
  unfold StockInv; infer_instance

/-! ## Concrete states and inputs

`db1` / `inp1` replay the spec's worked example (§8): a variant with
stock 10, threshold 5; a sale of quantity 3 at unit price 15.99 with item
discount 1.00, transaction discount 2.00, payment 35.00, while cashier 7
has an open shift. -/

def sh1 : ShiftRow :=
  { id := 1, cashier_id := 7, start_time := 0, end_time := none,
    opening_cash := 100, closing_cash := none, total_sales := 0, transaction_count := 0 }

def db1 : DB :=
  { users := [7]
    variants := [{ id := 1, stock_quantity := 10, low_stock_threshold := 5 }]
    transactions := [], items := [], shifts := [sh1]
    nextTxId := 1, nextShiftId := 2, now := 5 }

def inp1 : CreateTransactionInput :=
  { customer_id := none, cashier_id := 7
    items := [{ product_variant_id := 1, quantity := 3,
                unit_price := (1599 : Rat) / 100, discount_amount := 1 }]
    payment_method := .cash, payment_amount := 35, discount_amount := 2, notes := none }

/-- An input with an empty item list (the schema accepts it). -/
def inp10 : CreateTransactionInput :=
  { customer_id := none, cashier_id := 7, items := []
    payment_method := .cash, payment_amount := 10, discount_amount := 0, notes := none }

/-- Two variants, the second one short of stock for the request below. -/
def db7 : DB :=
  { users := [7]
    variants := [{ id := 1, stock_quantity := 5, low_stock_threshold := 2 },
                 { id := 2, stock_quantity := 1, low_stock_threshold := 2 }]
    transactions := [], items := [], shifts := []
    nextTxId := 1, nextShiftId := 1, now := 0 }

/-- First item is satisfiable, the second requests 3 of a variant holding 1. -/
def inp7 : CreateTransactionInput :=
  { customer_id := none, cashier_id := 7
    items := [{ product_variant_id := 1, quantity := 2, unit_price := 10, discount_amount := 0 },
              { product_variant_id := 2, quantity := 3, unit_price := 10, discount_amount := 0 }]
    payment_method := .cash, payment_amount := 50, discount_amount := 0, notes := none }

/-- A state for exercising the write phase: two variants and an open shift. -/
def db2 : DB :=
  { users := [7]
    variants := [{ id := 1, stock_quantity := 4, low_stock_threshold := 2 },
                 { id := 2, stock_quantity := 5, low_stock_threshold := 2 }]
    transactions := [], items := [], shifts := [sh1]
    nextTxId := 1, nextShiftId := 2, now := 3 }

/-- A two-item sale against `db2`; both preconditions hold. -/
def inp2 : CreateTransactionInput :=
  { customer_id := none, cashier_id := 7
    items := [{ product_variant_id := 1, quantity := 3, unit_price := 10, discount_amount := 0 },
              { product_variant_id := 2, quantity := 2, unit_price := 10, discount_amount := 0 }]
    payment_method := .card, payment_amount := 50, discount_amount := 0, notes := none }

/-- The committed state when the write phase of `createTransaction db2 inp2`
fails after its third statement: because the source wraps the statements in
no storage transaction, the first three individually awaited statements
(insert the transaction row, insert the first item row, decrement the first
variant) stay committed. -/
def db2Cut : DB :=
  ((writeSteps db2 inp2).take 3).foldl applyWrite db2

/-- One variant with stock 5 and every stock non-negative. -/
def db3 : DB :=
  { users := [7]
    variants := [{ id := 1, stock_quantity := 5, low_stock_threshold := 2 }]
    transactions := [], items := [], shifts := []
    nextTxId := 1, nextShiftId := 1, now := 0 }

/-- Two line items referencing the same variant, each for quantity 3: each
passes the per-item check against the unmodified stock of 5, yet together
they consume 6. -/
def inp3 : CreateTransactionInput :=
  { customer_id := none, cashier_id := 7
    items := [{ product_variant_id := 1, quantity := 3, unit_price := 10, discount_amount := 0 },
              { product_variant_id := 1, quantity := 3, unit_price := 10, discount_amount := 0 }]
    payment_method := .cash, payment_amount := 60, discount_amount := 0, notes := none }

/-- A completed transaction of 100.00 by cashier 7 at tick 2. -/
def t100 : TransactionRow :=
  { id := 1, customer_id := none, cashier_id := 7, subtotal := 100,
    discount_amount := 0, tax_amount := 0, total_amount := 100,
    payment_method := .cash, payment_amount := 100, change_amount := 0,
    status := .completed, notes := none, created_at := 2 }

/-- A completed transaction of 50.00 by cashier 7 at tick 3. -/
def t50 : TransactionRow :=
  { id := 2, customer_id := none, cashier_id := 7, subtotal := 50,
    discount_amount := 0, tax_amount := 0, total_amount := 50,
    payment_method := .cash, payment_amount := 50, change_amount := 0,
    status := .completed, notes := none, created_at := 3 }

/-- An open shift whose incrementally maintained counters have drifted
(999 / 42) from the completed transactions in its window. -/
def shE : ShiftRow :=
  { id := 1, cashier_id := 7, start_time := 0, end_time := none,
    opening_cash := 100, closing_cash := none,
    total_sales := 999, transaction_count := 42 }

/-- A state holding `shE` and the two completed transactions `t100`, `t50`. -/
def dbE : DB :=
  { users := [7]
    variants := []
    transactions := [t100, t50]
    items := []
    shifts := [shE]
    nextTxId := 3, nextShiftId := 2, now := 4 }

/-! ## Helper lemmas -/

theorem foldl_add_map {α : Type} (f : α → Rat) :
    ∀ (l : List α) (a : Rat), l.foldl (fun s x => s + f x) a = a + (l.map f).sum
  | [], a => by simp
  | x :: l, a => by
    rw [List.foldl_cons, foldl_add_map f l (a + f x), List.map_cons, List.sum_cons, add_assoc]

theorem subtotalOf_eq_sum (items : List TxItemInput) :
    subtotalOf items =
      (items.map (fun it => it.unit_price * (it.quantity : Rat) - it.discount_amount)).sum := by
  unfold subtotalOf
  rw [foldl_add_map, zero_add]

theorem itemSteps_foldl (n : Nat) :
    ∀ (items : List TxItemInput) (d : DB),
      (itemSteps n items).foldl applyWrite d =
        { d with
            items := d.items ++ items.map (mkItemRow n)
            variants := decAll items d.variants }
  | [], d => by simp [itemSteps, decAll]
  | it :: rest, d => by
    rw [itemSteps, List.foldl_cons, List.foldl_cons, itemSteps_foldl n rest]
    simp [applyWrite, decAll, List.foldl_cons, List.append_assoc]

theorem createTransaction_ok_state (db : DB) (input : CreateTransactionInput)
    (h : validateItems db input.items = none) :
    createTransaction db input =
      (.ok (mkTxRow db input),
        { db with
            transactions := db.transactions ++ [mkTxRow db input]
            items := db.items ++ input.items.map (mkItemRow db.nextTxId)
            variants := decAll input.items db.variants
            shifts := db.shifts.map (fun s =>
              if isOpenFor input.cashier_id s then
                { s with total_sales := s.total_sales + (mkTxRow db input).total_amount,
                         transaction_count := s.transaction_count + 1 }
              else s)
            nextTxId := db.nextTxId + 1 }) := by
  unfold createTransaction
  rw [h]
  unfold writeSteps
  rw [List.foldl_cons, List.foldl_append]
  rw [show applyWrite db (.insertTransactionRow (mkTxRow db input)) =
      { db with transactions := db.transactions ++ [mkTxRow db input],
                nextTxId := db.nextTxId + 1 } from rfl]
  rw [itemSteps_foldl]
  rfl

theorem restoreStock_eq :
    ∀ (items : List TransactionItemRow) (vs : List Variant),
      restoreStock items vs = vs.map (fun v =>
        { v with stock_quantity := v.stock_quantity +
            ((items.filter (fun it => it.product_variant_id == v.id)).map
              (fun it => (it.quantity : Int))).sum })
  | [], vs => by
    simp [restoreStock]
  | it :: rest, vs => by
    have h1 : restoreStock (it :: rest) vs = restoreStock rest
        (vs.map (fun v =>
          if v.id == it.product_variant_id then
            { v with stock_quantity := v.stock_quantity + (it.quantity : Int) }
          else v)) := rfl
    rw [h1, restoreStock_eq rest, List.map_map]
    refine List.map_congr_left (fun v _ => ?_)
    simp only [Function.comp_apply, List.filter_cons, beq_iff_eq]
    by_cases hv : v.id = it.product_variant_id
    · simp [hv, add_assoc]
    · have hvv : ¬ it.product_variant_id = v.id := fun h => hv h.symm
      simp [hv, hvv]

theorem length_filter_map_eq {α : Type} (l : List α) (f : α → α) (p : α → Bool)
    (h : ∀ a, p (f a) = p a) :
    ((l.map f).filter p).length = (l.filter p).length := by
  induction l with
  | nil => rfl
  | cons a l ih =>
    rw [List.map_cons, List.filter_cons, List.filter_cons, h a]
    cases hpa : p a <;> simp [ih]

theorem length_filter_map_le {α : Type} (l : List α) (f : α → α) (p : α → Bool)
    (h : ∀ a, p (f a) = true → p a = true) :
    ((l.map f).filter p).length ≤ (l.filter p).length := by
  induction l with
  | nil => exact le_refl _
  | cons a l ih =>
    rw [List.map_cons, List.filter_cons, List.filter_cons]
    cases hfa : p (f a)
    · cases hpa : p a <;> simp [ih, Nat.le_succ_of_le]
    · rw [h a hfa]
      simpa using ih

theorem isOpenFor_saleUpd (cid c : Nat) (amount : Rat) (s : ShiftRow) :
    isOpenFor c (if isOpenFor cid s then
        { s with total_sales := s.total_sales + amount,
                 transaction_count := s.transaction_count + 1 }
      else s) = isOpenFor c s := by
  split <;> rfl

theorem isOpenFor_refundUpd (cid c : Nat) (amount : Rat) (s : ShiftRow) :
    isOpenFor c (if isOpenFor cid s then
        { s with total_sales := s.total_sales - amount,
                 transaction_count := s.transaction_count - 1 }
      else s) = isOpenFor c s := by
  split <;> rfl

theorem openCount_createTx (db : DB) (input : CreateTransactionInput) (c : Nat) :
    openCount ((createTransaction db input).2) c = openCount db c := by
  cases h : validateItems db input.items with
  | none =>
    rw [createTransaction_ok_state db input h]
    unfold openCount
    exact length_filter_map_eq _ _ _ (isOpenFor_saleUpd input.cashier_id c _)
  | some e =>
    unfold createTransaction
    rw [h]

theorem openCount_refundTx (db : DB) (tid : Nat) (c : Nat) :
    openCount ((refundTransaction db tid).2) c = openCount db c := by
  unfold refundTransaction
  cases h : findTransaction db tid with
  | none => rfl
  | some tx =>
    by_cases hs : tx.status = .refunded
    · simp [hs]
    · simp only [hs, if_false]
      unfold openCount
      exact length_filter_map_eq _ _ _ (isOpenFor_refundUpd tx.cashier_id c _)

theorem openCount_stockUpdate (db : DB) (vid : Nat) (d : Int) (c : Nat) :
    openCount ((updateStock db vid d).2) c = openCount db c := by
  unfold updateStock
  cases h : findVariant db vid with
  | none => rfl
  | some v =>
    by_cases hneg : v.stock_quantity + d < 0 <;> simp [hneg, openCount]

theorem endShift_notfound_state (db : DB) (sid : Nat) (cc : Rat)
    (h : findShift db sid = none) :
    endShift db sid cc = (.error .ShiftNotFound, db) := by
  simp only [endShift, h]

theorem endShift_ended_state (db : DB) (sid : Nat) (cc : Rat) (s : ShiftRow) (t : Nat)
    (h : findShift db sid = some s) (he : s.end_time = some t) :
    endShift db sid cc = (.error .ShiftAlreadyEnded, db) := by
  simp only [endShift, h, he]

theorem endShift_ok_state (db : DB) (sid : Nat) (cc : Rat) (s : ShiftRow)
    (h : findShift db sid = some s) (he : s.end_time = none) :
    endShift db sid cc = (.ok (closedShiftRow db s cc),
      { db with shifts := db.shifts.map (fun sh =>
          if sh.id == sid then closedShiftRow db s cc else sh) }) := by
  simp only [endShift, h, he]

theorem openCount_endShift (db : DB) (sid : Nat) (cc : Rat) (c : Nat) :
    openCount ((endShift db sid cc).2) c ≤ openCount db c := by
  cases h : findShift db sid with
  | none => rw [endShift_notfound_state db sid cc h]
  | some s =>
    cases he : s.end_time with
    | some t => rw [endShift_ended_state db sid cc s t h he]
    | none =>
      rw [endShift_ok_state db sid cc s h he]
      unfold openCount
      refine length_filter_map_le _ _ _ (fun sh hsh => ?_)
      by_cases hid : (sh.id == sid) = true
      · rw [if_pos hid] at hsh
        exfalso
        simp [isOpenFor, closedShiftRow] at hsh
      · rwa [if_neg hid] at hsh

theorem shiftInv_step (db : DB) (op : Op) (h : ShiftInv db) : ShiftInv (step db op) := by
  cases op with
  | createTx input => intro c; rw [step, openCount_createTx]; exact h c
  | refundTx tid => intro c; rw [step, openCount_refundTx]; exact h c
  | stockUpdate vid d => intro c; rw [step, openCount_stockUpdate]; exact h c
  | shiftEnd sid cc => intro c; exact le_trans (openCount_endShift db sid cc c) (h c)
  | tick dt => exact h
  | shiftStart cid oc =>
    intro c
    rw [step]
    unfold startShift
    by_cases hu : db.users.contains cid
    · rw [if_pos hu]
      cases ha : db.shifts.any (isOpenFor cid) with
      | true => simpa using h c
      | false =>
        simp only [Bool.false_eq_true, if_false]
        unfold openCount
        rw [List.filter_append, List.length_append]
        by_cases hc : c = cid
        · subst hc
          have hnil : db.shifts.filter (isOpenFor c) = [] := by
            rw [List.filter_eq_nil_iff]
            intro a ha'
            have := (List.any_eq_false).1 ha a ha'
            simpa using this
          simp [hnil, List.filter_cons, isOpenFor]
        · have hcc : ¬ cid = c := fun hh => hc hh.symm
          have hrow : isOpenFor c
              { id := db.nextShiftId, cashier_id := cid, start_time := db.now,
                end_time := none, opening_cash := oc, closing_cash := none,
                total_sales := 0, transaction_count := 0 } = false := by
            simp [isOpenFor, hcc]
          simp [List.filter_cons, hrow]
          simpa using h c
    · rw [if_neg hu]
      exact h c

theorem shiftInv_run (ops : List Op) :
    ∀ (db : DB), ShiftInv db → ShiftInv (run db ops) := by
  induction ops with
  | nil => exact fun db h => h
  | cons op ops ih =>
    intro db h
    exact ih (step db op) (shiftInv_step db op h)

theorem validateItems_append (db : DB) (it : TxItemInput) (post : List TxItemInput)
    (e : PosError) :
    ∀ (pre : List TxItemInput), (∀ j ∈ pre, itemCheck db j = none) →
      itemCheck db it = some e →
      validateItems db (pre ++ it :: post) = some e
  | [], _, hit => by
    rw [List.nil_append, validateItems, hit]
  | j :: pre, hpre, hit => by
    rw [List.cons_append, validateItems, hpre j (by simp)]
    exact validateItems_append db it post e pre (fun k hk => hpre k (by simp [hk])) hit

theorem refundTransaction_notfound_state (db : DB) (tid : Nat)
    (h : findTransaction db tid = none) :
    refundTransaction db tid = (.error (.TransactionNotFound tid), db) := by
  simp only [refundTransaction, h]

theorem refundTransaction_refunded_state (db : DB) (tid : Nat) (tx : TransactionRow)
    (h : findTransaction db tid = some tx) (hs : tx.status = .refunded) :
    refundTransaction db tid = (.error .AlreadyRefunded, db) := by
  simp only [refundTransaction, h, if_pos hs]

theorem refundTransaction_ok_state (db : DB) (tid : Nat) (tx : TransactionRow)
    (h : findTransaction db tid = some tx) (hs : tx.status ≠ .refunded) :
    refundTransaction db tid = (.ok { tx with status := .refunded },
      { db with
          variants := restoreStock (itemsOfTransaction db tid) db.variants
          transactions := db.transactions.map (fun t =>
            if t.id == tid then { t with status := .refunded } else t)
          shifts := db.shifts.map (fun s =>
            if isOpenFor tx.cashier_id s then
              { s with total_sales := s.total_sales - tx.total_amount,
                       transaction_count := s.transaction_count - 1 }
            else s) }) := by
  simp only [refundTransaction, h, if_neg hs]

/-! ## Sanity checks on concrete runs -/

/-- Start a shift, then start another for the same cashier: the second
request fails with AlreadyActive (spec §8 example). -/
theorem startShift_twice_demo :
    (startShift ((startShift db3 7 100).2) 7 50).1 = .error .ShiftAlreadyActive := rfl

/-- Sell 3 units from stock 10, refund: the stock returns to 10 and a
second refund fails with AlreadyRefunded (spec §8). -/
theorem refund_twice_demo :
    (findVariant ((refundTransaction ((createTransaction db1 inp1).2) 1).2) 1).map
        Variant.stock_quantity = some 10 ∧
    (refundTransaction ((refundTransaction ((createTransaction db1 inp1).2) 1).2) 1).1 =
      .error .AlreadyRefunded := by
  exact ⟨by decide, rfl⟩

/-- Closing a shift over two completed transactions of 100.00 and 50.00
writes total_sales = 150 and transaction_count = 2, regardless of the
drifted incremental counters 999 / 42 (spec §8 example). -/
theorem endShift_recompute_demo :
    ∃ row, (endShift dbE 1 120).1 = .ok row ∧
      row.total_sales = 150 ∧ row.transaction_count = 2 := by
  refine ⟨closedShiftRow dbE shE 120, rfl, ?_, rfl⟩
  show ((shiftWindowTransactions dbE shE).map (fun t => t.total_amount)).sum = 150
  rw [show shiftWindowTransactions dbE shE = [t100, t50] from rfl]
  show t100.total_amount + (t50.total_amount + 0) = 150
  norm_num [t100, t50]

/-! ## The claims -/

/-- C1: `createTransaction` computes and returns exact monetary fields:
each inserted line item's `total_price` is
`unit_price × quantity − item.discount_amount`; the returned transaction's
`subtotal` is the sum of the per-item totals, its `tax_amount` is 0, its
`total_amount` is `subtotal − discount_amount + tax_amount`, and its
`change_amount` is `payment_amount − total_amount`. -/
theorem C1_createTransaction_monetary_fields (db : DB) (input : CreateTransactionInput)
    (tx : TransactionRow) (h : (createTransaction db input).1 = .ok tx) :
    tx.subtotal = (input.items.map (fun it =>
        it.unit_price * (it.quantity : Rat) - it.discount_amount)).sum ∧
    tx.tax_amount = 0 ∧
    tx.discount_amount = input.discount_amount ∧
    tx.payment_amount = input.payment_amount ∧
    tx.total_amount = tx.subtotal - input.discount_amount + tx.tax_amount ∧
    tx.change_amount = input.payment_amount - tx.total_amount ∧
    (createTransaction db input).2.items = db.items ++ input.items.map (fun it =>
      { transaction_id := tx.id
        product_variant_id := it.product_variant_id
        quantity := it.quantity
        unit_price := it.unit_price
        discount_amount := it.discount_amount
        total_price := it.unit_price * (it.quantity : Rat) - it.discount_amount }) := by
  cases hval : validateItems db input.items with
  | some e =>
    unfold createTransaction at h
    rw [hval] at h
    simp at h
  | none =>
    have hst := createTransaction_ok_state db input hval
    rw [hst] at h
    have htx : mkTxRow db input = tx := by simpa using h
    subst htx
    refine ⟨subtotalOf_eq_sum input.items, rfl, rfl, rfl, rfl, rfl, ?_⟩
    rw [hst]
    rfl

/-- C1 witness: the spec's worked example — quantity 3 at 15.99 with item
discount 1.00 and transaction discount 2.00 yields subtotal 46.97 and
change 35.00 − 44.97. -/
theorem C1_witness_example_sale :
    (mkTxRow db1 inp1).subtotal = (inp1.items.map (fun it =>
        it.unit_price * (it.quantity : Rat) - it.discount_amount)).sum ∧
    (mkTxRow db1 inp1).change_amount = inp1.payment_amount - (mkTxRow db1 inp1).total_amount := by
  have h := C1_createTransaction_monetary_fields db1 inp1 (mkTxRow db1 inp1) rfl
  exact ⟨h.1, h.2.2.2.2.2.1⟩

/-- C4: `refundTransaction` fails with NotFound when the transaction does
not exist, with AlreadyRefunded when its status is already refunded (so a
second refund always fails); otherwise it adds each item's recorded
quantity back to the referenced variant's stock, marks the transaction
refunded, and subtracts the transaction's total from the cashier's open
shift while decrementing its transaction count. -/
theorem C4_refundTransaction_spec (db : DB) (tid : Nat) :
    (findTransaction db tid = none →
      refundTransaction db tid = (.error (.TransactionNotFound tid), db)) ∧
    (∀ tx, findTransaction db tid = some tx → tx.status = .refunded →
      refundTransaction db tid = (.error .AlreadyRefunded, db)) ∧
    (∀ tx, findTransaction db tid = some tx → tx.status ≠ .refunded →
      (refundTransaction db tid).1 = .ok { tx with status := .refunded } ∧
      (refundTransaction db tid).2.variants = db.variants.map (fun v =>
        { v with stock_quantity := v.stock_quantity +
            (((itemsOfTransaction db tid).filter
                (fun it => it.product_variant_id == v.id)).map
              (fun it => (it.quantity : Int))).sum }) ∧
      (refundTransaction db tid).2.transactions = db.transactions.map (fun t =>
        if t.id == tid then { t with status := .refunded } else t) ∧
      (refundTransaction db tid).2.shifts = db.shifts.map (fun s =>
        if isOpenFor tx.cashier_id s then
          { s with total_sales := s.total_sales - tx.total_amount,
                   transaction_count := s.transaction_count - 1 }
        else s) ∧
      (refundTransaction db tid).2.items = db.items) := by
  refine ⟨refundTransaction_notfound_state db tid,
          fun tx h hs => refundTransaction_refunded_state db tid tx h hs,
          fun tx h hs => ?_⟩
  have hst := refundTransaction_ok_state db tid tx h hs
  rw [hst]
  exact ⟨rfl, restoreStock_eq _ _, rfl, rfl, rfl⟩

/-- C5: at most one open shift per cashier is preserved by every sequence
of requests, and `startShift` fails for an unknown cashier, fails with
AlreadyActive when the cashier already has an open shift, and otherwise
creates a shift with the given opening cash, zeroed counters and no end
time. -/
theorem C5_shift_exclusivity (db : DB) (ops : List Op) (c : Nat) (oc : Rat) :
    (ShiftInv db → ShiftInv (run db ops)) ∧
    (db.users.contains c = false → startShift db c oc = (.error .CashierNotFound, db)) ∧
    (db.users.contains c = true → db.shifts.any (isOpenFor c) = true →
      startShift db c oc = (.error .ShiftAlreadyActive, db)) ∧
    (db.users.contains c = true → db.shifts.any (isOpenFor c) = false →
      startShift db c oc = (.ok
        { id := db.nextShiftId, cashier_id := c, start_time := db.now,
          end_time := none, opening_cash := oc, closing_cash := none,
          total_sales := 0, transaction_count := 0 },
        { db with
            shifts := db.shifts ++
              [{ id := db.nextShiftId, cashier_id := c, start_time := db.now,
                 end_time := none, opening_cash := oc, closing_cash := none,
                 total_sales := 0, transaction_count := 0 }]
            nextShiftId := db.nextShiftId + 1 })) := by
  refine ⟨shiftInv_run ops db, fun h => ?_, fun h1 h2 => ?_, fun h1 h2 => ?_⟩
  · unfold startShift
    rw [h]
    simp
  · unfold startShift
    rw [h1, h2]
    simp
  · unfold startShift
    rw [h1, h2]
    simp

/-- C6: `endShift` fails when the shift is unknown, fails with
AlreadyEnded when the shift already has an end time, and otherwise sets
the end time to now and the closing cash as given, and overwrites
total_sales and transaction_count with the sum and count of the completed
transactions of the shift's cashier created within the shift window,
whatever the incremental counters held. -/
theorem C6_endShift_recomputes (db : DB) (sid : Nat) (cc : Rat) :
    (findShift db sid = none → endShift db sid cc = (.error .ShiftNotFound, db)) ∧
    (∀ s t, findShift db sid = some s → s.end_time = some t →
      endShift db sid cc = (.error .ShiftAlreadyEnded, db)) ∧
    (∀ s, findShift db sid = some s → s.end_time = none →
      (endShift db sid cc).1 = .ok { s with
          end_time := some db.now
          closing_cash := some cc
          total_sales := ((db.transactions.filter (fun t =>
              t.cashier_id == s.cashier_id && decide (s.start_time ≤ t.created_at) &&
              decide (t.created_at ≤ db.now) && t.status == TxStatus.completed)).map
            (fun t => t.total_amount)).sum
          transaction_count := ((db.transactions.filter (fun t =>
              t.cashier_id == s.cashier_id && decide (s.start_time ≤ t.created_at) &&
              decide (t.created_at ≤ db.now) && t.status == TxStatus.completed)).length : Int) } ∧
      (endShift db sid cc).2.shifts = db.shifts.map (fun sh =>
        if sh.id == sid then closedShiftRow db s cc else sh)) := by
  refine ⟨endShift_notfound_state db sid cc,
          fun s t h he => endShift_ended_state db sid cc s t h he,
          fun s h he => ?_⟩
  rw [endShift_ok_state db sid cc s h he]
  exact ⟨rfl, rfl⟩

/-- C7: `createTransaction` checks its preconditions per line item in list
order before any write: the first offending item determines the failure —
NotFound when its variant is missing, otherwise InsufficientStock carrying
the available and requested quantities — and on such a failure the state
is returned untouched. -/
theorem C7_precondition_order (db : DB) (input : CreateTransactionInput)
    (pre : List TxItemInput) (it : TxItemInput) (post : List TxItemInput) (e : PosError)
    (hsplit : input.items = pre ++ it :: post)
    (hpre : ∀ j ∈ pre, itemCheck db j = none)
    (hit : itemCheck db it = some e) :
    createTransaction db input = (.error e, db) ∧
    (findVariant db it.product_variant_id = none →
      e = .VariantNotFound it.product_variant_id) ∧
    (∀ v, findVariant db it.product_variant_id = some v →
      v.stock_quantity < (it.quantity : Int) ∧
      e = .InsufficientStock it.product_variant_id v.stock_quantity (it.quantity : Int)) := by
  have hval : validateItems db input.items = some e := by
    rw [hsplit]
    exact validateItems_append db it post e pre hpre hit
  refine ⟨?_, ?_, ?_⟩
  · unfold createTransaction
    rw [hval]
  · intro hnone
    unfold itemCheck at hit
    rw [hnone] at hit
    exact (Option.some_inj.mp hit).symm
  · intro v hv
    unfold itemCheck at hit
    rw [hv] at hit
    have hit2 : (if v.stock_quantity < (it.quantity : Int) then
        some (PosError.InsufficientStock it.product_variant_id v.stock_quantity
          (it.quantity : Int))
      else none) = some e := hit
    by_cases hst : v.stock_quantity < (it.quantity : Int)
    · rw [if_pos hst] at hit2
      exact ⟨hst, (Option.some_inj.mp hit2).symm⟩
    · rw [if_neg hst] at hit2
      cases hit2

/-- C7 witness: the first item (2 of variant 1, stock 5) passes, the
second asks 3 of variant 2 which holds 1, so the call fails with
InsufficientStock 2 1 3 and the state is unchanged. -/
theorem C7_witness_insufficient_second_item :
    createTransaction db7 inp7 = (.error (.InsufficientStock 2 1 3), db7) :=
  (C7_precondition_order db7 inp7
    [{ product_variant_id := 1, quantity := 2, unit_price := 10, discount_amount := 0 }]
    { product_variant_id := 2, quantity := 3, unit_price := 10, discount_amount := 0 }
    [] (.InsufficientStock 2 1 3) rfl (by decide) (by decide)).1

/-- C8: the engine does not reject underpayment: whenever the per-item
preconditions hold and `payment_amount` is less than the computed total,
the call still succeeds with a completed transaction whose
`change_amount = payment_amount − total_amount` is negative. -/
theorem C8_underpayment_not_rejected (db : DB) (input : CreateTransactionInput)
    (hval : validateItems db input.items = none)
    (hpay : input.payment_amount < (input.items.map (fun it =>
        it.unit_price * (it.quantity : Rat) - it.discount_amount)).sum -
      input.discount_amount) :
    (createTransaction db input).1 = .ok (mkTxRow db input) ∧
    (mkTxRow db input).status = .completed ∧
    (mkTxRow db input).change_amount =
      input.payment_amount - (mkTxRow db input).total_amount ∧
    (mkTxRow db input).change_amount < 0 := by
  refine ⟨by rw [createTransaction_ok_state db input hval], rfl, rfl, ?_⟩
  show input.payment_amount - (subtotalOf input.items - input.discount_amount + 0) < 0
  rw [subtotalOf_eq_sum, add_zero]
  exact sub_neg.mpr hpay

/-- C8 witness: payment 35.00 against total 44.97 succeeds with change
−9.97 (the spec's §8 example). -/
theorem C8_witness_underpaid_sale :
    (createTransaction db1 inp1).1 = .ok (mkTxRow db1 inp1) ∧
    (mkTxRow db1 inp1).change_amount < 0 := by
  have h := C8_underpayment_not_rejected db1 inp1 rfl (by norm_num [inp1])
  exact ⟨h.1, h.2.2.2⟩

/-- C9: `getLowStockVariants` returns exactly the variants whose
stock_quantity is at most low_stock_threshold (equality included):
membership in the result is equivalent to membership in the catalog plus
the threshold predicate. -/
theorem C9_getLowStockVariants_exact (db : DB) (v : Variant) :
    v ∈ getLowStockVariants db ↔
      v ∈ db.variants ∧ v.stock_quantity ≤ v.low_stock_threshold := by
  unfold getLowStockVariants
  simp [List.mem_filter]

/-- C10: an empty item list is accepted: for every schema-valid input with
no items the call succeeds with subtotal 0, total 0 − discount, change
payment − total, inserts no item rows, changes no stock, and still bumps
the cashier's open shift. -/
theorem C10_empty_items_accepted (db : DB) (input : CreateTransactionInput)
    (_hschema : SchemaValidInput input) (hempty : input.items = []) :
    (createTransaction db input).1 = .ok (mkTxRow db input) ∧
    (mkTxRow db input).subtotal = 0 ∧
    (mkTxRow db input).total_amount = 0 - input.discount_amount ∧
    (mkTxRow db input).change_amount =
      input.payment_amount - (mkTxRow db input).total_amount ∧
    (mkTxRow db input).status = .completed ∧
    (createTransaction db input).2.items = db.items ∧
    (createTransaction db input).2.variants = db.variants ∧
    (createTransaction db input).2.transactions = db.transactions ++ [mkTxRow db input] ∧
    (createTransaction db input).2.shifts = db.shifts.map (fun s =>
      if isOpenFor input.cashier_id s then
        { s with total_sales := s.total_sales + (mkTxRow db input).total_amount,
                 transaction_count := s.transaction_count + 1 }
      else s) := by
  have hval : validateItems db input.items = none := by
    rw [hempty]
    rfl
  have hst := createTransaction_ok_state db input hval
  have hsub : (mkTxRow db input).subtotal = 0 := by
    show subtotalOf input.items = 0
    rw [hempty]
    rfl
  refine ⟨by rw [hst], hsub, ?_, rfl, rfl, ?_, ?_, by rw [hst], by rw [hst]⟩
  · show subtotalOf input.items - input.discount_amount + 0 = 0 - input.discount_amount
    rw [hempty]
    show (0 : Rat) - input.discount_amount + 0 = 0 - input.discount_amount
    rw [add_zero]
  · rw [hst]
    show db.items ++ input.items.map (mkItemRow db.nextTxId) = db.items
    rw [hempty]
    simp
  · rw [hst]
    show decAll input.items db.variants = db.variants
    rw [hempty]
    rfl

/-- C10 witness: a schema-valid input with no items succeeds against the
example state and inserts nothing. -/
theorem C10_witness_empty_sale :
    (createTransaction db1 inp10).1 = .ok (mkTxRow db1 inp10) ∧
    (createTransaction db1 inp10).2.variants = db1.variants := by
  have h := C10_empty_items_accepted db1 inp10 (by decide) rfl
  exact ⟨h.1, h.2.2.2.2.2.2.1⟩

/-- C2 (write phase is not one unit of work): the committed state of
`createTransaction` is the fold of six individually awaited, individually
committed statements with no enclosing storage transaction.  When the run
stops after the third statement — e.g. the insert of the second item row
fails — the committed state `db2Cut` holds the transaction row, the first
item row, and the first stock decrement, and differs from both the initial
and the final state: the effects are not all-or-nothing. -/
theorem C2_write_phase_not_atomic :
    (createTransaction db2 inp2).2 = (writeSteps db2 inp2).foldl applyWrite db2 ∧
    (writeSteps db2 inp2).length = 6 ∧
    db2Cut.transactions = [mkTxRow db2 inp2] ∧
    (findVariant db2Cut 1).map Variant.stock_quantity = some 1 ∧
    (findVariant db2Cut 2).map Variant.stock_quantity = some 5 ∧
    db2Cut.items.length = 1 ∧
    db2Cut ≠ db2 ∧
    db2Cut ≠ (createTransaction db2 inp2).2 := by
  exact ⟨rfl, rfl, rfl, by decide, by decide, rfl, by decide, by decide⟩

/-- C3 (stock can go negative): from a state where every stock is
non-negative, a single `createTransaction` whose item list references the
same variant twice passes the per-item validation — each item is checked
against the unmodified stock — commits, and leaves the variant's stock at
−1. -/
theorem C3_duplicate_line_items_break_stock_invariant :
    StockInv db3 ∧
    (createTransaction db3 inp3).1 = .ok (mkTxRow db3 inp3) ∧
    (findVariant (run db3 [Op.createTx inp3]) 1).map Variant.stock_quantity = some (-1) ∧
    ¬ StockInv (run db3 [Op.createTx inp3]) := by
  exact ⟨by decide, rfl, by decide, by decide⟩

end POS
